import Mathlib

/-!
Verification development for the QueryDog traffic generators
(`sampleschema/data_generator.py` and `sampleschema/query_generator.py`).

The Python generators are shallowly embedded: every random draw a generator
makes (`random.choice`, `random.randint`, `random.uniform`, `random.random`,
`random.sample`, Faker values) becomes an explicit field of a `...Rand`
structure, constrained by a `Valid` predicate that records the ranges the
source draws from.  Monetary values and timestamps are `ℚ`; Python's
`round(x, 2)` becomes `round2`; nullable columns become `Option`.
-/

namespace QueryDog

/-- Python `round(x, 2)`: round to a whole number of hundredths.
(Python rounds ties to even; `round2` rounds ties up.  Every use in the
source either carries an explicit rounding tolerance or is applied to an
exact multiple of 1/100, where the two agree.) -/
def round2 (x : ℚ) : ℚ := ((round (x * 100) : ℤ) : ℚ) / 100

/-- `x` is a whole number of cents, i.e. an exact two-decimal value. -/
def IsCent (x : ℚ) : Prop := x.den ∣ 100

instance (x : ℚ) : Decidable (IsCent x) :=
  inferInstanceAs (Decidable (x.den ∣ 100))

theorem isCent_iff (x : ℚ) : IsCent x ↔ ∃ n : ℤ, x = (n : ℚ) / 100 := by
  constructor
  · intro h
    refine ⟨x.num * (100 / x.den : ℕ), ?_⟩
    have hden : (x.den : ℚ) ≠ 0 := by
      exact_mod_cast x.den_nz
    have hmul : (x.den * (100 / x.den) : ℕ) = 100 := Nat.mul_div_cancel' h
    have hk : (x.den : ℚ) * ((100 / x.den : ℕ) : ℚ) = 100 := by
      exact_mod_cast congrArg (Nat.cast (R := ℚ)) hmul
    have hx : x * (x.den : ℚ) = (x.num : ℚ) := Rat.mul_den_eq_num x
    rw [eq_div_iff (by norm_num : (100 : ℚ) ≠ 0)]
    push_cast
    calc x * 100 = x * ((x.den : ℚ) * ((100 / x.den : ℕ) : ℚ)) := by rw [hk]
      _ = (x * (x.den : ℚ)) * ((100 / x.den : ℕ) : ℚ) := by ring
      _ = (x.num : ℚ) * ((100 / x.den : ℕ) : ℚ) := by rw [hx]
  · rintro ⟨n, rfl⟩
    have h := Rat.den_dvd n 100
    rw [Rat.divInt_eq_div] at h
    unfold IsCent
    exact_mod_cast h

theorem isCent_zero : IsCent 0 := by decide

theorem isCent_add {x y : ℚ} (hx : IsCent x) (hy : IsCent y) : IsCent (x + y) := by
  rw [isCent_iff] at hx hy ⊢
  obtain ⟨a, rfl⟩ := hx
  obtain ⟨b, rfl⟩ := hy
  exact ⟨a + b, by push_cast; ring⟩

theorem isCent_sub {x y : ℚ} (hx : IsCent x) (hy : IsCent y) : IsCent (x - y) := by
  rw [isCent_iff] at hx hy ⊢
  obtain ⟨a, rfl⟩ := hx
  obtain ⟨b, rfl⟩ := hy
  exact ⟨a - b, by push_cast; ring⟩

theorem isCent_natMul {x : ℚ} (hx : IsCent x) (q : ℕ) : IsCent (x * (q : ℚ)) := by
  rw [isCent_iff] at hx ⊢
  obtain ⟨a, rfl⟩ := hx
  exact ⟨a * q, by push_cast; ring⟩

theorem isCent_round2 (x : ℚ) : IsCent (round2 x) :=
  (isCent_iff _).mpr ⟨round (x * 100), rfl⟩

theorem round2_eq_self {x : ℚ} (hx : IsCent x) : round2 x = x := by
  rw [isCent_iff] at hx
  obtain ⟨n, rfl⟩ := hx
  unfold round2
  rw [div_mul_cancel₀ (b := (100 : ℚ)) _ (by norm_num), round_intCast]

theorem isCent_sum {l : List ℚ} (h : ∀ y ∈ l, IsCent y) : IsCent l.sum := by
  induction l with
  | nil => simpa using isCent_zero
  | cons a t ih =>
      rw [List.sum_cons]
      exact isCent_add (h a (List.mem_cons_self a t))
        (ih fun y hy => h y (List.mem_cons_of_mem a hy))

/-! ### Status vocabularies (constants of both source files) -/

/-- `ORDER_STATUSES` (data_generator.py line 44, query_generator.py line 45). -/
def ORDER_STATUSES : List String :=
  ["pending", "confirmed", "processing", "shipped", "delivered", "cancelled", "refunded"]

/-- `CART_STATUSES` (data_generator.py line 54, query_generator.py line 47). -/
def CART_STATUSES : List String := ["active", "abandoned", "converted", "expired"]

/-! ### RateGovernor: pacing in `run_load_generator`
(query_generator.py lines 41, 961, 1031, 1034) -/

/-- `TARGET_QPS = 15` (query_generator.py line 41). -/
def TARGET_QPS : ℚ := 15

/-- `base_interval = 1.0 / TARGET_QPS` (line 961). -/
def base_interval : ℚ := 1 / TARGET_QPS

/-- Lines 1031 and 1034 of query_generator.py: the jittered interval
`base_interval * random.uniform(0.5, 1.5)` minus the measured latency
`duration_ms / 1000`, clamped at zero by `max(0, ...)`. -/
def next_sleep_time (u duration_ms : ℚ) : ℚ :=
  max 0 (base_interval * u - duration_ms / 1000)

/-- Modelled from the spec wording (§4.4): `max(0, (1/R) × U(0.5,1.5) − latency_seconds)`,
used to compare the code's pacing computation against the specified formula. -/
def spec_sleep_formula (R L u : ℚ) : ℚ := max 0 (1 / R * u - L)

/-- C5: for every loop iteration, the computed sleep duration equals
`max(0, (1/R) × u − L)` with `R = TARGET_QPS` and `L` the just-measured
latency in seconds (`duration_ms / 1000`), and it is never negative. -/
theorem c5_sleep_pacing (u duration_ms : ℚ)
    (hu1 : 1 / 2 ≤ u) (hu2 : u ≤ 3 / 2) (hd : 0 ≤ duration_ms) :
    next_sleep_time u duration_ms
      = spec_sleep_formula TARGET_QPS (duration_ms / 1000) u ∧
    0 ≤ next_sleep_time u duration_ms := by
  refine ⟨rfl, ?_⟩
  exact le_max_left _ _

/-- Witness for C5 at `u = 1`, latency 40 ms. -/
theorem c5_sleep_pacing_witness :
    next_sleep_time 1 40 = spec_sleep_formula TARGET_QPS (40 / 1000) 1 ∧
    0 ≤ next_sleep_time 1 40 :=
  c5_sleep_pacing 1 40 (by norm_num) (by norm_num) (by norm_num)

/-! ### Customer generation (C8)
`generate_customer` (data_generator.py lines 74-138) and
`generate_insert_customer` (query_generator.py lines 463-512). -/

/-- The random draws `generate_customer` / `generate_insert_customer` make
that are relevant to the monetary aggregates. -/
structure CustomerRand where
  segment : String
  /-- `random.randint(0, 50)` or `random.randint(0, 5)` depending on segment. -/
  total_orders_draw : ℕ
  /-- `random.uniform(0, 10000)`. -/
  spent_draw : ℚ

/-- The monetary-aggregate fields of a generated customer record. -/
structure Customer where
  customer_segment : String
  total_orders : ℕ
  total_spent : ℚ
  average_order_value : ℚ

/-- `generate_customer` (data_generator.py lines 101-128, monetary fields):
`total_spent = round(uniform(0,10000) if total_orders > 0 else 0, 2)`,
`average_order_value = round(total_spent / max(total_orders, 1), 2)`. -/
def generate_customer (r : CustomerRand) : Customer :=
  let total_orders := r.total_orders_draw
  let total_spent := round2 (if 0 < total_orders then r.spent_draw else 0)
  { customer_segment := r.segment
    total_orders := total_orders
    total_spent := total_spent
    average_order_value := round2 (total_spent / ((max total_orders 1 : ℕ) : ℚ)) }

/-- `generate_insert_customer` (query_generator.py lines 469-470 and 505-506):
the same monetary-aggregate computation as `generate_customer`. -/
def generate_insert_customer (r : CustomerRand) : Customer :=
  let total_orders := r.total_orders_draw
  let total_spent := round2 (if 0 < total_orders then r.spent_draw else 0)
  { customer_segment := r.segment
    total_orders := total_orders
    total_spent := total_spent
    average_order_value := round2 (total_spent / ((max total_orders 1 : ℕ) : ℚ)) }

/-- C8: for every generated customer record, from either generator,
`average_order_value = round2(total_spent / max(total_orders, 1))`. -/
theorem c8_average_order_value (r s : CustomerRand) :
    (generate_customer r).average_order_value
      = round2 ((generate_customer r).total_spent
          / ((max (generate_customer r).total_orders 1 : ℕ) : ℚ)) ∧
    (generate_insert_customer s).average_order_value
      = round2 ((generate_insert_customer s).total_spent
          / ((max (generate_insert_customer s).total_orders 1 : ℕ) : ℚ)) :=
  ⟨rfl, rfl⟩

/-! ### Order generation
`generate_order` (data_generator.py lines 141-217) and
`generate_insert_order` (query_generator.py lines 515-585). -/

/-- An entry of the `PRODUCTS` catalog (data_generator.py lines 59-62). -/
structure Product where
  id : String
  name : String
  category : String
  price : ℚ

/-- `subtotal = sum(p['price'] * q for p, q in zip(products, quantities))`
(data_generator.py lines 171 and 303; query_generator.py line 529). -/
def items_subtotal (prices : List ℚ) (quantities : List ℕ) : ℚ :=
  (List.zipWith (fun (p : ℚ) (q : ℕ) => p * (q : ℚ)) prices quantities).sum

/-- The random draws `generate_order` (data_generator.py) makes. -/
structure OrderRand where
  order_date : ℚ
  /-- `random.choices(ORDER_STATUSES, weights=[...])[0]` (line 156). -/
  status : String
  /-- `random.randint(1, 3)` days (line 162). -/
  ship_days : ℕ
  /-- `random.randint(1, 5)` days (line 164). -/
  deliver_days : ℕ
  /-- `random.sample(PRODUCTS, num_items)` (line 168). -/
  products : List Product
  /-- `random.randint(1, 3)` per item (line 169). -/
  quantities : List ℕ
  /-- `random.uniform(0.05, 0.12)` (line 172). -/
  tax_rate : ℚ
  /-- `random.uniform(0, 15.99)` (line 174). -/
  shipping_draw : ℚ
  /-- `random.random()` guarding the discount (line 175). -/
  discount_roll : ℚ
  /-- `random.uniform(0, 0.2)` (line 175). -/
  discount_rate : ℚ
  /-- `random.choice(['pending', 'failed'])` (line 199); `true` means `'pending'`. -/
  payment_pick_pending : Bool
  /-- `fake.uuid4()` (line 200). -/
  txid : String

/-- The ranges the draws of `generate_order` come from. -/
def OrderRand.Valid (r : OrderRand) : Prop :=
  r.status ∈ ORDER_STATUSES ∧
  1 ≤ r.ship_days ∧ r.ship_days ≤ 3 ∧
  1 ≤ r.deliver_days ∧ r.deliver_days ≤ 5 ∧
  1 ≤ r.products.length ∧ r.products.length ≤ 5 ∧
  r.quantities.length = r.products.length ∧
  (∀ p ∈ r.products, IsCent p.price ∧ 0 ≤ p.price) ∧
  (∀ q ∈ r.quantities, 1 ≤ q ∧ q ≤ 3) ∧
  1 / 20 ≤ r.tax_rate ∧ r.tax_rate ≤ 3 / 25 ∧
  0 ≤ r.shipping_draw ∧ r.shipping_draw ≤ 1599 / 100 ∧
  0 ≤ r.discount_roll ∧ r.discount_roll < 1 ∧
  0 ≤ r.discount_rate ∧ r.discount_rate ≤ 1 / 5

instance (r : OrderRand) : Decidable r.Valid := by
  unfold OrderRand.Valid
  infer_instance

/-- The fields of a generated order record that the claims speak about. -/
structure Order where
  order_status : String
  shipped_date : Option ℚ
  delivered_date : Option ℚ
  subtotal : ℚ
  tax_amount : ℚ
  shipping_cost : ℚ
  discount_amount : ℚ
  total_amount : ℚ
  payment_status : String
  transaction_id : Option String
  item_quantities : List ℕ
  item_unit_prices : List ℚ

/-- `generate_order` (data_generator.py lines 155-217).
Dates: `shipped_date = order_date + randint(1,3) days` when the status is
shipped or delivered (line 162); `delivered_date = shipped_date +
randint(1,5) days` when delivered (line 164; `shipped_date` is always set
on that branch, so the sum is written out).
Money (lines 171-176): `tax = round(subtotal*uniform(.05,.12), 2)`,
`shipping = round(uniform(0,15.99), 2) if subtotal < 50 else 0`,
`discount = round(subtotal*uniform(0,.2), 2) if random() > 0.7 else 0`,
`total = round(subtotal + tax + shipping - discount, 2)`.
Payment (lines 199-200): `'completed'` unless the status is pending or
cancelled, in which case `random.choice(['pending','failed'])`;
`transaction_id` set exactly when the status is neither pending nor
cancelled. -/
def generate_order (r : OrderRand) : Order :=
  let shipped_date : Option ℚ :=
    if r.status = "shipped" ∨ r.status = "delivered"
      then some (r.order_date + (r.ship_days : ℚ)) else none
  let delivered_date : Option ℚ :=
    if r.status = "delivered"
      then some ((r.order_date + (r.ship_days : ℚ)) + (r.deliver_days : ℚ)) else none
  let subtotal := items_subtotal (r.products.map Product.price) r.quantities
  let tax_amount := round2 (subtotal * r.tax_rate)
  let shipping_cost := if subtotal < 50 then round2 r.shipping_draw else 0
  let discount_amount :=
    if r.discount_roll > 7 / 10 then round2 (subtotal * r.discount_rate) else 0
  { order_status := r.status
    shipped_date := shipped_date
    delivered_date := delivered_date
    subtotal := round2 subtotal
    tax_amount := tax_amount
    shipping_cost := shipping_cost
    discount_amount := discount_amount
    total_amount := round2 (subtotal + tax_amount + shipping_cost - discount_amount)
    payment_status :=
      if ¬ (r.status = "pending" ∨ r.status = "cancelled") then "completed"
      else if r.payment_pick_pending then "pending" else "failed"
    transaction_id :=
      if ¬ (r.status = "pending" ∨ r.status = "cancelled") then some r.txid else none
    item_quantities := r.quantities
    item_unit_prices := r.products.map Product.price }

/-- The random draws `generate_insert_order` (query_generator.py) makes. -/
structure InsertOrderRand where
  order_date : ℚ
  /-- `random.choice(ORDER_STATUSES)` (line 520). -/
  status : String
  /-- `random.randint(1, 3)` days (line 557). -/
  ship_days : ℕ
  /-- `random.randint(4, 8)` days (line 558). -/
  deliver_days : ℕ
  /-- `random.uniform(9.99, 499.99)` per item, before rounding (line 526). -/
  unit_price_draws : List ℚ
  /-- `random.randint(1, 3)` per item (line 525). -/
  quantities : List ℕ
  /-- `random.uniform(0.05, 0.12)` (line 530). -/
  tax_rate : ℚ
  /-- `random.uniform(0, 15.99)` (line 531). -/
  shipping_draw : ℚ
  /-- `random.random()` guarding the discount (line 532). -/
  discount_roll : ℚ
  /-- `random.uniform(0, 0.2)` (line 532). -/
  discount_rate : ℚ
  /-- `str(uuid.uuid4())` (line 567). -/
  txid : String

/-- The ranges the draws of `generate_insert_order` come from. -/
def InsertOrderRand.Valid (r : InsertOrderRand) : Prop :=
  r.status ∈ ORDER_STATUSES ∧
  1 ≤ r.ship_days ∧ r.ship_days ≤ 3 ∧
  4 ≤ r.deliver_days ∧ r.deliver_days ≤ 8 ∧
  1 ≤ r.unit_price_draws.length ∧ r.unit_price_draws.length ≤ 5 ∧
  r.quantities.length = r.unit_price_draws.length ∧
  (∀ p ∈ r.unit_price_draws, 0 ≤ p ∧ p ≤ 49999 / 100) ∧
  (∀ q ∈ r.quantities, 1 ≤ q ∧ q ≤ 3) ∧
  1 / 20 ≤ r.tax_rate ∧ r.tax_rate ≤ 3 / 25 ∧
  0 ≤ r.shipping_draw ∧ r.shipping_draw ≤ 1599 / 100 ∧
  0 ≤ r.discount_roll ∧ r.discount_roll < 1 ∧
  0 ≤ r.discount_rate ∧ r.discount_rate ≤ 1 / 5

instance (r : InsertOrderRand) : Decidable r.Valid := by
  unfold InsertOrderRand.Valid
  infer_instance

/-- `generate_insert_order` (query_generator.py lines 515-585).
`unit_prices = [round(uniform(9.99,499.99), 2) ...]` (line 526);
`subtotal = sum(float(p) * q ...)` (line 529); money lines 530-533 as in
`generate_order`.  Dates (lines 557-558): `shipped = order_date +
randint(1,3) days` when shipped/delivered, `delivered = order_date +
randint(4,8) days` when delivered.  Payment (lines 566-567): `'completed'`
unless pending/cancelled, else `'pending'`; `transaction_id` set exactly
when neither pending nor cancelled. -/
def generate_insert_order (r : InsertOrderRand) : Order :=
  let unit_prices := r.unit_price_draws.map round2
  let subtotal := items_subtotal unit_prices r.quantities
  let tax_amount := round2 (subtotal * r.tax_rate)
  let shipping_cost := if subtotal < 50 then round2 r.shipping_draw else 0
  let discount_amount :=
    if r.discount_roll > 7 / 10 then round2 (subtotal * r.discount_rate) else 0
  { order_status := r.status
    shipped_date :=
      if r.status = "shipped" ∨ r.status = "delivered"
        then some (r.order_date + (r.ship_days : ℚ)) else none
    delivered_date :=
      if r.status = "delivered"
        then some (r.order_date + (r.deliver_days : ℚ)) else none
    subtotal := round2 subtotal
    tax_amount := tax_amount
    shipping_cost := shipping_cost
    discount_amount := discount_amount
    total_amount := round2 (subtotal + tax_amount + shipping_cost - discount_amount)
    payment_status :=
      if ¬ (r.status = "pending" ∨ r.status = "cancelled") then "completed" else "pending"
    transaction_id :=
      if ¬ (r.status = "pending" ∨ r.status = "cancelled") then some r.txid else none
    item_quantities := r.quantities
    item_unit_prices := unit_prices }

/-- `a` strictly precedes `b` whenever both timestamps are present. -/
def optStrictlyBefore (a b : Option ℚ) : Bool :=
  match a, b with
  | some x, some y => decide (x < y)
  | _, _ => true

/-- C1: for every generated order, from either generator: `shipped_date` is
set iff the status is shipped or delivered; `delivered_date` is set iff the
status is delivered; and when both dates are set the delivery strictly
follows the shipment. -/
theorem c1_order_dates (r : OrderRand) (s : InsertOrderRand)
    (hr : r.Valid) (hs : s.Valid) :
    ((generate_order r).shipped_date.isSome = true ↔
      ((generate_order r).order_status = "shipped" ∨
       (generate_order r).order_status = "delivered")) ∧
    ((generate_order r).delivered_date.isSome = true ↔
      (generate_order r).order_status = "delivered") ∧
    optStrictlyBefore (generate_order r).shipped_date
      (generate_order r).delivered_date = true ∧
    ((generate_insert_order s).shipped_date.isSome = true ↔
      ((generate_insert_order s).order_status = "shipped" ∨
       (generate_insert_order s).order_status = "delivered")) ∧
    ((generate_insert_order s).delivered_date.isSome = true ↔
      (generate_insert_order s).order_status = "delivered") ∧
    optStrictlyBefore (generate_insert_order s).shipped_date
      (generate_insert_order s).delivered_date = true := by
  have hdel1 : 1 ≤ r.deliver_days := hr.2.2.2.1
  have hship3 : s.ship_days ≤ 3 := hs.2.2.1
  have hdel4 : 4 ≤ s.deliver_days := hs.2.2.2.1
  refine ⟨?_, ?_, ?_, ?_, ?_, ?_⟩
  · by_cases h : r.status = "shipped" ∨ r.status = "delivered" <;>
      simp [generate_order, h]
  · by_cases h : r.status = "delivered" <;> simp [generate_order, h]
  · by_cases h : r.status = "delivered"
    · have hd : (1 : ℚ) ≤ (r.deliver_days : ℚ) := by exact_mod_cast hdel1
      simp only [generate_order, h, or_true, if_true, optStrictlyBefore]
      rw [decide_eq_true_eq]
      linarith
    · by_cases h2 : r.status = "shipped" ∨ r.status = "delivered" <;>
        simp [generate_order, h, h2, optStrictlyBefore]
  · by_cases h : s.status = "shipped" ∨ s.status = "delivered" <;>
      simp [generate_insert_order, h]
  · by_cases h : s.status = "delivered" <;> simp [generate_insert_order, h]
  · by_cases h : s.status = "delivered"
    · have h3 : ((s.ship_days : ℚ)) ≤ 3 := by exact_mod_cast hship3
      have h4 : (4 : ℚ) ≤ (s.deliver_days : ℚ) := by exact_mod_cast hdel4
      simp only [generate_insert_order, h, or_true, if_true, optStrictlyBefore]
      rw [decide_eq_true_eq]
      linarith
    · by_cases h2 : s.status = "shipped" ∨ s.status = "delivered" <;>
        simp [generate_insert_order, h, h2, optStrictlyBefore]

/-- A sample draw for `generate_order`, in the ranges of the source. -/
def sampleOrderRand : OrderRand :=
  { order_date := 1000
    status := "delivered"
    ship_days := 2
    deliver_days := 3
    products := [⟨"PROD-0001", "Widget", "electronics", 10⟩,
                 ⟨"PROD-0002", "Gadget", "toys", 25⟩]
    quantities := [2, 1]
    tax_rate := 1 / 10
    shipping_draw := 499 / 100
    discount_roll := 9 / 10
    discount_rate := 1 / 10
    payment_pick_pending := true
    txid := "tx-1" }

/-- A sample draw for `generate_insert_order`, in the ranges of the source. -/
def sampleInsertOrderRand : InsertOrderRand :=
  { order_date := 2000
    status := "pending"
    ship_days := 1
    deliver_days := 5
    unit_price_draws := [1234 / 100]
    quantities := [3]
    tax_rate := 1 / 20
    shipping_draw := 0
    discount_roll := 1 / 2
    discount_rate := 0
    txid := "tx-2" }

theorem sampleOrderRand_valid : sampleOrderRand.Valid := by
  unfold OrderRand.Valid sampleOrderRand
  norm_num [ORDER_STATUSES, IsCent]

theorem sampleInsertOrderRand_valid : sampleInsertOrderRand.Valid := by
  unfold InsertOrderRand.Valid sampleInsertOrderRand
  norm_num [ORDER_STATUSES]

/-- Witness for C1 at the sample draws. -/
theorem c1_order_dates_witness :
    ((generate_order sampleOrderRand).shipped_date.isSome = true ↔
      ((generate_order sampleOrderRand).order_status = "shipped" ∨
       (generate_order sampleOrderRand).order_status = "delivered")) ∧
    ((generate_order sampleOrderRand).delivered_date.isSome = true ↔
      (generate_order sampleOrderRand).order_status = "delivered") ∧
    optStrictlyBefore (generate_order sampleOrderRand).shipped_date
      (generate_order sampleOrderRand).delivered_date = true ∧
    ((generate_insert_order sampleInsertOrderRand).shipped_date.isSome = true ↔
      ((generate_insert_order sampleInsertOrderRand).order_status = "shipped" ∨
       (generate_insert_order sampleInsertOrderRand).order_status = "delivered")) ∧
    ((generate_insert_order sampleInsertOrderRand).delivered_date.isSome = true ↔
      (generate_insert_order sampleInsertOrderRand).order_status = "delivered") ∧
    optStrictlyBefore (generate_insert_order sampleInsertOrderRand).shipped_date
      (generate_insert_order sampleInsertOrderRand).delivered_date = true :=
  c1_order_dates sampleOrderRand sampleInsertOrderRand
    sampleOrderRand_valid sampleInsertOrderRand_valid

/-- C9: payment consistency for both order generators.  The data generator
draws `payment_status` from `{'pending','failed'}` when the order status is
pending or cancelled and sets `'completed'` otherwise; the query generator
uses `'pending'` for pending/cancelled orders; `transaction_id` is set iff
the status is neither pending nor cancelled. -/
theorem c9_payment_consistency (r : OrderRand) (s : InsertOrderRand) :
    ((generate_order r).payment_status = "completed" ↔
      ¬ ((generate_order r).order_status = "pending" ∨
         (generate_order r).order_status = "cancelled")) ∧
    (generate_order r).payment_status ∈
      (if (generate_order r).order_status = "pending" ∨
          (generate_order r).order_status = "cancelled"
        then ["pending", "failed"] else ["completed"]) ∧
    ((generate_order r).transaction_id.isSome = true ↔
      ¬ ((generate_order r).order_status = "pending" ∨
         (generate_order r).order_status = "cancelled")) ∧
    ((generate_insert_order s).payment_status = "completed" ↔
      ¬ ((generate_insert_order s).order_status = "pending" ∨
         (generate_insert_order s).order_status = "cancelled")) ∧
    ((generate_insert_order s).payment_status =
      if (generate_insert_order s).order_status = "pending" ∨
         (generate_insert_order s).order_status = "cancelled"
        then "pending" else "completed") ∧
    ((generate_insert_order s).transaction_id.isSome = true ↔
      ¬ ((generate_insert_order s).order_status = "pending" ∨
         (generate_insert_order s).order_status = "cancelled")) := by
  by_cases h : r.status = "pending" ∨ r.status = "cancelled" <;>
    by_cases h2 : s.status = "pending" ∨ s.status = "cancelled" <;>
      cases hb : r.payment_pick_pending <;>
        simp [generate_order, generate_insert_order, h, h2, hb]

/-! ### Shopping-cart generation
`generate_shopping_cart` (data_generator.py lines 289-356) and
`generate_insert_shopping_cart` (query_generator.py lines 655-732). -/

/-- The random draws `generate_shopping_cart` (data_generator.py) makes. -/
structure CartRand where
  /-- `random.choices(CART_STATUSES, weights=[0.3,0.4,0.25,0.05])[0]` (line 294). -/
  cart_status : String
  cart_created : ℚ
  /-- `random.randint(1, 6)` (line 298). -/
  num_items : ℕ
  /-- `random.sample(PRODUCTS, num_items)` (line 299). -/
  products : List Product
  /-- `random.randint(1, 3)` per item (line 300). -/
  quantities : List ℕ
  /-- `random.uniform(0.05, 0.12)` (line 304). -/
  tax_rate : ℚ
  /-- `random.uniform(0, 12.99)` (line 305). -/
  shipping_draw : ℚ
  /-- `random.random()` guarding the discount (line 306). -/
  discount_roll : ℚ
  /-- `random.uniform(0, 0.15)` (line 306). -/
  discount_rate : ℚ
  /-- `random.randint(1, 60)` minutes (line 309). -/
  updated_minutes : ℕ
  /-- `random.randint(1, 24)` hours (line 310). -/
  abandoned_hours : ℕ
  /-- `random.randint(5, 30)` minutes (line 311). -/
  converted_minutes : ℕ
  /-- `uuid.uuid4()` (line 327). -/
  converted_order_uuid : String

/-- The ranges the draws of `generate_shopping_cart` come from. -/
def CartRand.Valid (r : CartRand) : Prop :=
  r.cart_status ∈ CART_STATUSES ∧
  1 ≤ r.num_items ∧ r.num_items ≤ 6 ∧
  r.products.length = r.num_items ∧
  r.quantities.length = r.num_items ∧
  (∀ p ∈ r.products, IsCent p.price ∧ 0 ≤ p.price) ∧
  (∀ q ∈ r.quantities, 1 ≤ q ∧ q ≤ 3) ∧
  1 / 20 ≤ r.tax_rate ∧ r.tax_rate ≤ 3 / 25 ∧
  0 ≤ r.shipping_draw ∧ r.shipping_draw ≤ 1299 / 100 ∧
  0 ≤ r.discount_roll ∧ r.discount_roll < 1 ∧
  0 ≤ r.discount_rate ∧ r.discount_rate ≤ 3 / 20 ∧
  1 ≤ r.updated_minutes ∧ r.updated_minutes ≤ 60 ∧
  1 ≤ r.abandoned_hours ∧ r.abandoned_hours ≤ 24 ∧
  5 ≤ r.converted_minutes ∧ r.converted_minutes ≤ 30

instance (r : CartRand) : Decidable r.Valid := by
  unfold CartRand.Valid
  infer_instance

/-- The fields of a generated shopping-cart record that the claims speak
about.  Timestamps are rationals measured in minutes. -/
structure ShoppingCart where
  cart_status : String
  cart_abandoned_at : Option ℚ
  cart_converted_at : Option ℚ
  converted_order_id : Option String
  item_product_ids : List String
  item_product_names : List String
  item_product_categories : List String
  item_quantities : List ℕ
  item_unit_prices : List ℚ
  item_total_prices : List ℚ
  items_count : ℕ
  unique_items_count : ℕ
  subtotal : ℚ
  estimated_tax : ℚ
  estimated_shipping : ℚ
  discount_amount : ℚ
  estimated_total : ℚ

/-- `generate_shopping_cart` (data_generator.py lines 289-356).
Money (lines 303-307): `subtotal = Σ price*q`; `tax = round(subtotal *
uniform(.05,.12), 2)`; `shipping = round(uniform(0,12.99), 2) if subtotal
< 50 else 0`; `discount = round(subtotal*uniform(0,.15), 2) if random() >
0.8 else 0`; `total = round(subtotal + tax + shipping - discount, 2)`.
Lifecycle (lines 309-311, 325-327): `cart_updated = created +
randint(1,60) min`; `cart_abandoned_at = updated + randint(1,24) h` only
for status abandoned; `cart_converted_at = updated + randint(5,30) min`
only for status converted; `converted_order_id = uuid4()` only for status
converted.  Counts (lines 335-336): `items_count = sum(quantities)`,
`unique_items_count = num_items`. -/
def generate_shopping_cart (r : CartRand) : ShoppingCart :=
  let subtotal := items_subtotal (r.products.map Product.price) r.quantities
  let estimated_tax := round2 (subtotal * r.tax_rate)
  let estimated_shipping := if subtotal < 50 then round2 r.shipping_draw else 0
  let discount_amount :=
    if r.discount_roll > 4 / 5 then round2 (subtotal * r.discount_rate) else 0
  let cart_updated := r.cart_created + (r.updated_minutes : ℚ)
  { cart_status := r.cart_status
    cart_abandoned_at :=
      if r.cart_status = "abandoned"
        then some (cart_updated + 60 * (r.abandoned_hours : ℚ)) else none
    cart_converted_at :=
      if r.cart_status = "converted"
        then some (cart_updated + (r.converted_minutes : ℚ)) else none
    converted_order_id :=
      if r.cart_status = "converted" then some r.converted_order_uuid else none
    item_product_ids := r.products.map Product.id
    item_product_names := r.products.map Product.name
    item_product_categories := r.products.map Product.category
    item_quantities := r.quantities
    item_unit_prices := r.products.map Product.price
    item_total_prices :=
      List.zipWith (fun (p : ℚ) (q : ℕ) => round2 (p * (q : ℚ))) (r.products.map Product.price)
        r.quantities
    items_count := r.quantities.sum
    unique_items_count := r.num_items
    subtotal := round2 subtotal
    estimated_tax := estimated_tax
    estimated_shipping := estimated_shipping
    discount_amount := discount_amount
    estimated_total := round2 (subtotal + estimated_tax + estimated_shipping - discount_amount) }

/-- The random draws `generate_insert_shopping_cart` (query_generator.py)
makes. -/
structure InsertCartRand where
  /-- `random.choice(CART_STATUSES)` (line 659). -/
  cart_status : String
  cart_created : ℚ
  /-- `random.randint(1, 6)` (line 662). -/
  num_items : ℕ
  /-- `f'PROD-{...}'` per item (line 663). -/
  item_ids : List String
  /-- `fake.catch_phrase()` per item (line 664). -/
  item_names : List String
  /-- `random.choice(PRODUCT_CATEGORIES)` per item (line 665). -/
  item_categories : List String
  /-- `random.randint(1, 3)` per item (line 666). -/
  quantities : List ℕ
  /-- `random.uniform(9.99, 499.99)` per item, before rounding (line 667). -/
  price_draws : List ℚ
  /-- `random.uniform(0.05, 0.12)` (line 672). -/
  tax_rate : ℚ
  /-- `random.uniform(0, 12.99)` (line 673). -/
  shipping_draw : ℚ
  /-- `random.random()` guarding the discount (line 674). -/
  discount_roll : ℚ
  /-- `random.uniform(0, 0.15)` (line 674). -/
  discount_rate : ℚ
  /-- `random.randint(1, 60)` minutes (line 677). -/
  updated_minutes : ℕ
  /-- `random.randint(1, 24)` hours (line 700). -/
  abandoned_hours : ℕ
  /-- `random.randint(5, 30)` minutes (line 701). -/
  converted_minutes : ℕ
  /-- `str(uuid.uuid4())` (line 702). -/
  converted_order_uuid : String

/-- The ranges the draws of `generate_insert_shopping_cart` come from. -/
def InsertCartRand.Valid (r : InsertCartRand) : Prop :=
  r.cart_status ∈ CART_STATUSES ∧
  1 ≤ r.num_items ∧ r.num_items ≤ 6 ∧
  r.item_ids.length = r.num_items ∧
  r.item_names.length = r.num_items ∧
  r.item_categories.length = r.num_items ∧
  r.quantities.length = r.num_items ∧
  r.price_draws.length = r.num_items ∧
  (∀ p ∈ r.price_draws, 0 ≤ p ∧ p ≤ 49999 / 100) ∧
  (∀ q ∈ r.quantities, 1 ≤ q ∧ q ≤ 3) ∧
  1 / 20 ≤ r.tax_rate ∧ r.tax_rate ≤ 3 / 25 ∧
  0 ≤ r.shipping_draw ∧ r.shipping_draw ≤ 1299 / 100 ∧
  0 ≤ r.discount_roll ∧ r.discount_roll < 1 ∧
  0 ≤ r.discount_rate ∧ r.discount_rate ≤ 3 / 20 ∧
  1 ≤ r.updated_minutes ∧ r.updated_minutes ≤ 60 ∧
  1 ≤ r.abandoned_hours ∧ r.abandoned_hours ≤ 24 ∧
  5 ≤ r.converted_minutes ∧ r.converted_minutes ≤ 30

instance (r : InsertCartRand) : Decidable r.Valid := by
  unfold InsertCartRand.Valid
  infer_instance

/-- `generate_insert_shopping_cart` (query_generator.py lines 655-732).
`unit_prices = [round(uniform(9.99,499.99), 2) ...]` (line 667);
`total_prices = [round(p*q, 2) ...]` (line 668); `subtotal =
sum(total_prices)` (line 671); money lines 672-675 as in the data
generator.  Lifecycle (lines 677, 700-702): `cart_updated = created +
randint(1,60) min`; abandoned/converted timestamps and
`converted_order_id` only on the matching status.  Counts (lines
710-711): `items_count = sum(quantities)`, `unique_items_count =
num_items`. -/
def generate_insert_shopping_cart (r : InsertCartRand) : ShoppingCart :=
  let unit_prices := r.price_draws.map round2
  let total_prices :=
    List.zipWith (fun (p : ℚ) (q : ℕ) => round2 (p * (q : ℚ))) unit_prices r.quantities
  let subtotal := total_prices.sum
  let estimated_tax := round2 (subtotal * r.tax_rate)
  let estimated_shipping := if subtotal < 50 then round2 r.shipping_draw else 0
  let discount_amount :=
    if r.discount_roll > 4 / 5 then round2 (subtotal * r.discount_rate) else 0
  let cart_updated := r.cart_created + (r.updated_minutes : ℚ)
  { cart_status := r.cart_status
    cart_abandoned_at :=
      if r.cart_status = "abandoned"
        then some (cart_updated + 60 * (r.abandoned_hours : ℚ)) else none
    cart_converted_at :=
      if r.cart_status = "converted"
        then some (cart_updated + (r.converted_minutes : ℚ)) else none
    converted_order_id :=
      if r.cart_status = "converted" then some r.converted_order_uuid else none
    item_product_ids := r.item_ids
    item_product_names := r.item_names
    item_product_categories := r.item_categories
    item_quantities := r.quantities
    item_unit_prices := unit_prices
    item_total_prices := total_prices
    items_count := r.quantities.sum
    unique_items_count := r.num_items
    subtotal := round2 subtotal
    estimated_tax := estimated_tax
    estimated_shipping := estimated_shipping
    discount_amount := discount_amount
    estimated_total := round2 (subtotal + estimated_tax + estimated_shipping - discount_amount) }

/-- C4 fails as stated: a cart whose drawn status is `'active'` (drawable
with weight 0.3 on line 294 of data_generator.py) has NEITHER
`cart_abandoned_at` nor `cart_converted_at` set, so "exactly one is set"
is false. -/
def activeCartRand : CartRand :=
  { cart_status := "active"
    cart_created := 0
    num_items := 1
    products := [⟨"PROD-0003", "Doodad", "books", 12⟩]
    quantities := [1]
    tax_rate := 1 / 10
    shipping_draw := 5
    discount_roll := 1 / 2
    discount_rate := 1 / 10
    updated_minutes := 10
    abandoned_hours := 2
    converted_minutes := 10
    converted_order_uuid := "ord-1" }

/-- C4 counterexample: for the `'active'` cart draw neither abandonment
nor conversion timestamp is set, refuting "exactly one of
`cart_abandoned_at` and `cart_converted_at` is set". -/
theorem c4_exactly_one_counterexample :
    (generate_shopping_cart activeCartRand).cart_status = "active" ∧
    ((generate_shopping_cart activeCartRand).cart_abandoned_at.isSome ||
     (generate_shopping_cart activeCartRand).cart_converted_at.isSome) = false ∧
    (generate_shopping_cart activeCartRand).converted_order_id = none := by
  refine ⟨rfl, ?_, ?_⟩ <;> simp [generate_shopping_cart, activeCartRand]

/-- C4 (amended): for every generated shopping cart, from either
generator, AT MOST one of `cart_abandoned_at`/`cart_converted_at` is set
(statuses `'active'` and `'expired'` set neither); `cart_abandoned_at` is
set iff the status is `'abandoned'`; `cart_converted_at` is set iff the
status is `'converted'`; and `converted_order_id` is set iff the status is
`'converted'`. -/
theorem c4_cart_lifecycle (r : CartRand) (s : InsertCartRand) :
    ((generate_shopping_cart r).cart_abandoned_at.isSome = true ↔
      (generate_shopping_cart r).cart_status = "abandoned") ∧
    ((generate_shopping_cart r).cart_converted_at.isSome = true ↔
      (generate_shopping_cart r).cart_status = "converted") ∧
    ((generate_shopping_cart r).converted_order_id.isSome = true ↔
      (generate_shopping_cart r).cart_status = "converted") ∧
    ((generate_shopping_cart r).cart_abandoned_at.isSome &&
     (generate_shopping_cart r).cart_converted_at.isSome) = false ∧
    ((generate_insert_shopping_cart s).cart_abandoned_at.isSome = true ↔
      (generate_insert_shopping_cart s).cart_status = "abandoned") ∧
    ((generate_insert_shopping_cart s).cart_converted_at.isSome = true ↔
      (generate_insert_shopping_cart s).cart_status = "converted") ∧
    ((generate_insert_shopping_cart s).converted_order_id.isSome = true ↔
      (generate_insert_shopping_cart s).cart_status = "converted") ∧
    ((generate_insert_shopping_cart s).cart_abandoned_at.isSome &&
     (generate_insert_shopping_cart s).cart_converted_at.isSome) = false := by
  by_cases h1 : r.cart_status = "abandoned" <;>
    by_cases h2 : r.cart_status = "converted" <;>
      by_cases h3 : s.cart_status = "abandoned" <;>
        by_cases h4 : s.cart_status = "converted" <;>
          first
          | (exfalso; rw [h1] at h2; exact absurd h2 (by decide))
          | (exfalso; rw [h3] at h4; exact absurd h4 (by decide))
          | simp [generate_shopping_cart, generate_insert_shopping_cart, h1, h2, h3, h4]

/-- C10: for every generated shopping cart, from either generator, the
five parallel item lists share length `unique_items_count`, that length is
between 1 and 6, and `items_count` is the sum of `item_quantities`. -/
theorem c10_cart_items (r : CartRand) (s : InsertCartRand)
    (hr : r.Valid) (hs : s.Valid) :
    (generate_shopping_cart r).items_count
      = (generate_shopping_cart r).item_quantities.sum ∧
    (generate_shopping_cart r).item_product_ids.length
      = (generate_shopping_cart r).unique_items_count ∧
    (generate_shopping_cart r).item_product_names.length
      = (generate_shopping_cart r).unique_items_count ∧
    (generate_shopping_cart r).item_product_categories.length
      = (generate_shopping_cart r).unique_items_count ∧
    (generate_shopping_cart r).item_quantities.length
      = (generate_shopping_cart r).unique_items_count ∧
    (generate_shopping_cart r).item_unit_prices.length
      = (generate_shopping_cart r).unique_items_count ∧
    1 ≤ (generate_shopping_cart r).unique_items_count ∧
    (generate_shopping_cart r).unique_items_count ≤ 6 ∧
    (generate_insert_shopping_cart s).items_count
      = (generate_insert_shopping_cart s).item_quantities.sum ∧
    (generate_insert_shopping_cart s).item_product_ids.length
      = (generate_insert_shopping_cart s).unique_items_count ∧
    (generate_insert_shopping_cart s).item_product_names.length
      = (generate_insert_shopping_cart s).unique_items_count ∧
    (generate_insert_shopping_cart s).item_product_categories.length
      = (generate_insert_shopping_cart s).unique_items_count ∧
    (generate_insert_shopping_cart s).item_quantities.length
      = (generate_insert_shopping_cart s).unique_items_count ∧
    (generate_insert_shopping_cart s).item_unit_prices.length
      = (generate_insert_shopping_cart s).unique_items_count ∧
    1 ≤ (generate_insert_shopping_cart s).unique_items_count ∧
    (generate_insert_shopping_cart s).unique_items_count ≤ 6 := by
  obtain ⟨-, hn1, hn6, hpl, hql, -⟩ := hr
  obtain ⟨-, hm1, hm6, hil, hnl, hcl, hql2, hdl, -⟩ := hs
  refine ⟨rfl, ?_, ?_, ?_, ?_, ?_, hn1, hn6, rfl, ?_, ?_, ?_, ?_, ?_, hm1, hm6⟩ <;>
    simp [generate_shopping_cart, generate_insert_shopping_cart,
      hpl, hql, hil, hnl, hcl, hql2, hdl]

theorem isCent_items_subtotal {prices : List ℚ} (qs : List ℕ)
    (h : ∀ p ∈ prices, IsCent p) : IsCent (items_subtotal prices qs) := by
  induction prices generalizing qs with
  | nil => simpa [items_subtotal] using isCent_zero
  | cons p ps ih =>
      cases qs with
      | nil => simpa [items_subtotal] using isCent_zero
      | cons q qt =>
          simp only [items_subtotal, List.zipWith_cons_cons, List.sum_cons]
          exact isCent_add (isCent_natMul (h p (by simp)) q)
            (ih qt fun x hx => h x (by simp [hx]))

theorem zipWith_round2_mul {prices : List ℚ} (qs : List ℕ)
    (h : ∀ p ∈ prices, IsCent p) :
    List.zipWith (fun (p : ℚ) (q : ℕ) => round2 (p * (q : ℚ))) prices qs
      = List.zipWith (fun (p : ℚ) (q : ℕ) => p * (q : ℚ)) prices qs := by
  induction prices generalizing qs with
  | nil => simp
  | cons p ps ih =>
      cases qs with
      | nil => simp
      | cons q qt =>
          simp only [List.zipWith_cons_cons]
          rw [round2_eq_self (isCent_natMul (h p (by simp)) q),
            ih qt fun x hx => h x (by simp [hx])]

theorem roundDraws_cent {draws : List ℚ} : ∀ p ∈ draws.map round2, IsCent p := by
  intro p hp
  obtain ⟨d, -, rfl⟩ := List.mem_map.mp hp
  exact isCent_round2 d

/-- The exact-total decomposition shared by all four record generators:
if every unit price is an exact cent value, then rounding the grand total
to two decimals is the identity, so the stored total equals the exact sum
of the stored parts. -/
theorem total_decomposition (subtotal tax_rate shipping_draw discount_rate : ℚ)
    (hsub : IsCent subtotal) (roll : Prop) [Decidable roll] :
    round2 (subtotal + round2 (subtotal * tax_rate)
        + (if subtotal < 50 then round2 shipping_draw else 0)
        - (if roll then round2 (subtotal * discount_rate) else 0))
      = subtotal + round2 (subtotal * tax_rate)
        + (if subtotal < 50 then round2 shipping_draw else 0)
        - (if roll then round2 (subtotal * discount_rate) else 0) := by
  have hship : IsCent (if subtotal < 50 then round2 shipping_draw else 0) := by
    split
    · exact isCent_round2 _
    · exact isCent_zero
  have hdisc : IsCent (if roll then round2 (subtotal * discount_rate) else 0) := by
    split
    · exact isCent_round2 _
    · exact isCent_zero
  exact round2_eq_self
    (isCent_sub (isCent_add (isCent_add hsub (isCent_round2 _)) hship) hdisc)

/-- C3: for every generated order and every generated shopping cart, from
either generator, the stored total equals `subtotal + tax + shipping −
discount` exactly (hence within any 2-decimal rounding tolerance), and the
stored subtotal is the sum over line items of `unit_price × quantity`. -/
theorem c3_totals (r : OrderRand) (s : InsertOrderRand)
    (c : CartRand) (d : InsertCartRand)
    (hr : r.Valid) (hs : s.Valid) (hc : c.Valid) (hd : d.Valid) :
    (generate_order r).total_amount
      = (generate_order r).subtotal + (generate_order r).tax_amount
        + (generate_order r).shipping_cost - (generate_order r).discount_amount ∧
    (generate_order r).subtotal
      = items_subtotal (generate_order r).item_unit_prices
          (generate_order r).item_quantities ∧
    (generate_insert_order s).total_amount
      = (generate_insert_order s).subtotal + (generate_insert_order s).tax_amount
        + (generate_insert_order s).shipping_cost
        - (generate_insert_order s).discount_amount ∧
    (generate_insert_order s).subtotal
      = items_subtotal (generate_insert_order s).item_unit_prices
          (generate_insert_order s).item_quantities ∧
    (generate_shopping_cart c).estimated_total
      = (generate_shopping_cart c).subtotal + (generate_shopping_cart c).estimated_tax
        + (generate_shopping_cart c).estimated_shipping
        - (generate_shopping_cart c).discount_amount ∧
    (generate_shopping_cart c).subtotal
      = items_subtotal (generate_shopping_cart c).item_unit_prices
          (generate_shopping_cart c).item_quantities ∧
    (generate_insert_shopping_cart d).estimated_total
      = (generate_insert_shopping_cart d).subtotal
        + (generate_insert_shopping_cart d).estimated_tax
        + (generate_insert_shopping_cart d).estimated_shipping
        - (generate_insert_shopping_cart d).discount_amount ∧
    (generate_insert_shopping_cart d).subtotal
      = items_subtotal (generate_insert_shopping_cart d).item_unit_prices
          (generate_insert_shopping_cart d).item_quantities := by
  have hrp : ∀ p ∈ r.products.map Product.price, IsCent p := by
    intro p hp
    obtain ⟨x, hx, rfl⟩ := List.mem_map.mp hp
    exact (hr.2.2.2.2.2.2.2.2.1 x hx).1
  have hcp : ∀ p ∈ c.products.map Product.price, IsCent p := by
    intro p hp
    obtain ⟨x, hx, rfl⟩ := List.mem_map.mp hp
    exact (hc.2.2.2.2.2.1 x hx).1
  have hrsub : IsCent (items_subtotal (r.products.map Product.price) r.quantities) :=
    isCent_items_subtotal _ hrp
  have hssub : IsCent (items_subtotal (s.unit_price_draws.map round2) s.quantities) :=
    isCent_items_subtotal _ roundDraws_cent
  have hcsub : IsCent (items_subtotal (c.products.map Product.price) c.quantities) :=
    isCent_items_subtotal _ hcp
  have hdzip :
      List.zipWith (fun (p : ℚ) (q : ℕ) => round2 (p * (q : ℚ))) (d.price_draws.map round2)
          d.quantities
        = List.zipWith (fun (p : ℚ) (q : ℕ) => p * (q : ℚ)) (d.price_draws.map round2)
            d.quantities :=
    zipWith_round2_mul _ roundDraws_cent
  have hdsub :
      IsCent (List.zipWith (fun (p : ℚ) (q : ℕ) => round2 (p * (q : ℚ)))
        (d.price_draws.map round2) d.quantities).sum := by
    rw [hdzip]
    exact isCent_items_subtotal _ roundDraws_cent
  refine ⟨?_, ?_, ?_, ?_, ?_, ?_, ?_, ?_⟩
  · simp only [generate_order]
    rw [round2_eq_self hrsub]
    exact total_decomposition _ _ _ _ hrsub _
  · simp only [generate_order]
    rw [round2_eq_self hrsub]
  · simp only [generate_insert_order]
    rw [round2_eq_self hssub]
    exact total_decomposition _ _ _ _ hssub _
  · simp only [generate_insert_order]
    rw [round2_eq_self hssub]
  · simp only [generate_shopping_cart]
    rw [round2_eq_self hcsub]
    exact total_decomposition _ _ _ _ hcsub _
  · simp only [generate_shopping_cart]
    rw [round2_eq_self hcsub]
  · simp only [generate_insert_shopping_cart]
    rw [round2_eq_self hdsub]
    exact total_decomposition _ _ _ _ hdsub _
  · simp only [generate_insert_shopping_cart]
    rw [hdzip, round2_eq_self (hdzip ▸ hdsub)]
    rfl

/-- A sample draw for `generate_shopping_cart`, in the ranges of the
source. -/
def sampleCartRand : CartRand :=
  { cart_status := "abandoned"
    cart_created := 500
    num_items := 2
    products := [⟨"PROD-0010", "Thing", "sports", 30⟩,
                 ⟨"PROD-0011", "Stuff", "food", 15⟩]
    quantities := [1, 2]
    tax_rate := 1 / 10
    shipping_draw := 3
    discount_roll := 9 / 10
    discount_rate := 1 / 10
    updated_minutes := 30
    abandoned_hours := 3
    converted_minutes := 10
    converted_order_uuid := "ord-2" }

/-- A sample draw for `generate_insert_shopping_cart`, in the ranges of
the source. -/
def sampleInsertCartRand : InsertCartRand :=
  { cart_status := "converted"
    cart_created := 700
    num_items := 1
    item_ids := ["PROD-0042"]
    item_names := ["Gizmo"]
    item_categories := ["beauty"]
    quantities := [2]
    price_draws := [4999 / 100]
    tax_rate := 1 / 10
    shipping_draw := 0
    discount_roll := 0
    discount_rate := 0
    updated_minutes := 5
    abandoned_hours := 1
    converted_minutes := 6
    converted_order_uuid := "ord-3" }

theorem sampleCartRand_valid : sampleCartRand.Valid := by
  unfold CartRand.Valid sampleCartRand
  norm_num [CART_STATUSES, IsCent]

theorem sampleInsertCartRand_valid : sampleInsertCartRand.Valid := by
  unfold InsertCartRand.Valid sampleInsertCartRand
  norm_num [CART_STATUSES]

/-- Witness for C3 at the sample draws. -/
theorem c3_totals_witness :
    (generate_order sampleOrderRand).total_amount
      = (generate_order sampleOrderRand).subtotal
        + (generate_order sampleOrderRand).tax_amount
        + (generate_order sampleOrderRand).shipping_cost
        - (generate_order sampleOrderRand).discount_amount ∧
    (generate_shopping_cart sampleCartRand).estimated_total
      = (generate_shopping_cart sampleCartRand).subtotal
        + (generate_shopping_cart sampleCartRand).estimated_tax
        + (generate_shopping_cart sampleCartRand).estimated_shipping
        - (generate_shopping_cart sampleCartRand).discount_amount := by
  obtain ⟨h1, -, -, -, h5, -⟩ :=
    c3_totals sampleOrderRand sampleInsertOrderRand sampleCartRand
      sampleInsertCartRand sampleOrderRand_valid sampleInsertOrderRand_valid
      sampleCartRand_valid sampleInsertCartRand_valid
  exact ⟨h1, h5⟩

/-- Witness for C10 at the sample draws. -/
theorem c10_cart_items_witness :
    (generate_shopping_cart sampleCartRand).items_count
      = (generate_shopping_cart sampleCartRand).item_quantities.sum ∧
    (generate_shopping_cart sampleCartRand).item_product_ids.length
      = (generate_shopping_cart sampleCartRand).unique_items_count ∧
    1 ≤ (generate_insert_shopping_cart sampleInsertCartRand).unique_items_count ∧
    (generate_insert_shopping_cart sampleInsertCartRand).unique_items_count ≤ 6 := by
  obtain ⟨h1, h2, -, -, -, -, -, -, -, -, -, -, -, -, h15, h16⟩ :=
    c10_cart_items sampleCartRand sampleInsertCartRand
      sampleCartRand_valid sampleInsertCartRand_valid
  exact ⟨h1, h2, h15, h16⟩

/-! ### EntityPool reuse (C7)
The ambient pools `existing_customers` / `existing_sessions`
(data_generator.py lines 64-66) and the three consulting sites
(lines 143-153, 223, 291-292).  `random.choice` over a non-empty list is
modelled as selection at an arbitrary index reduced modulo the length;
each modelled site is a total function, mirroring that the Python guards
every `random.choice` call by a non-emptiness test and so never raises. -/

/-- A pool entry appended by `generate_customer` (data_generator.py
lines 135-137): `{id, email, first_name, last_name, segment}`. -/
structure PoolCustomer where
  id : String
  email : String
  first_name : String
  last_name : String
  segment : String

/-- A pool entry appended by `generate_page_view` (data_generator.py
line 246): `{id, customer_id}`. -/
structure PoolSession where
  id : String
  customer_id : Option String

/-- `generate_order` lines 143-153: when no explicit customer is passed,
reuse `random.choice(existing_customers)` if the pool is non-empty,
otherwise mint a minimal fresh customer dict. -/
def order_pick_customer (existing_customers : List PoolCustomer) (i : ℕ)
    (fresh : PoolCustomer) : PoolCustomer :=
  match existing_customers with
  | [] => fresh
  | c :: rest => (c :: rest).getD (i % (c :: rest).length) c

/-- `generate_page_view` line 223:
`random.choice(existing_customers)['id'] if existing_customers and
random.random() > 0.4 else None`. -/
def page_view_customer_id (existing_customers : List PoolCustomer) (i : ℕ)
    (roll : ℚ) : Option String :=
  match existing_customers with
  | [] => none
  | c :: rest =>
      if roll > 2 / 5 then some (((c :: rest).getD (i % (c :: rest).length) c).id)
      else none

/-- `generate_shopping_cart` line 291:
`random.choice(existing_sessions) if existing_sessions else
{'id': uuid.uuid4(), 'customer_id': None}`. -/
def cart_pick_session (existing_sessions : List PoolSession) (i : ℕ)
    (fresh_id : String) : PoolSession :=
  match existing_sessions with
  | [] => { id := fresh_id, customer_id := none }
  | s :: rest => (s :: rest).getD (i % (s :: rest).length) s

theorem getD_mod_mem {α : Type} (c : α) (rest : List α) (i : ℕ) (dflt : α) :
    (c :: rest).getD (i % (c :: rest).length) dflt ∈ c :: rest := by
  have hlt : i % (c :: rest).length < (c :: rest).length :=
    Nat.mod_lt _ (by simp)
  rw [List.getD_eq_getElem _ _ hlt]
  exact List.getElem_mem hlt

/-- C7: every pool-consulting generator reuses only registered entries when
the pool is non-empty, and falls back to the freshly minted anonymous
identity when the pool is empty; all three modelled sites are total
functions (generation never raises). -/
theorem c7_entity_pool (poolC : List PoolCustomer) (poolS : List PoolSession)
    (i j k : ℕ) (roll : ℚ) (fresh : PoolCustomer) (fresh_id : String)
    (hC : poolC ≠ []) (hS : poolS ≠ []) :
    order_pick_customer poolC i fresh ∈ poolC ∧
    page_view_customer_id poolC j roll ∈
      (none : Option String) :: poolC.map (fun c => some c.id) ∧
    cart_pick_session poolS k fresh_id ∈ poolS ∧
    order_pick_customer [] i fresh = fresh ∧
    page_view_customer_id [] j roll = none ∧
    cart_pick_session [] k fresh_id = { id := fresh_id, customer_id := none } := by
  refine ⟨?_, ?_, ?_, rfl, rfl, rfl⟩
  · match poolC with
    | [] => exact absurd rfl hC
    | c :: rest => exact getD_mod_mem c rest i c
  · match poolC with
    | [] => exact absurd rfl hC
    | c :: rest =>
        show (if roll > 2 / 5
            then some (((c :: rest).getD (j % (c :: rest).length) c).id)
            else none) ∈ _
        by_cases hroll : roll > 2 / 5
        · rw [if_pos hroll]
          exact List.mem_cons_of_mem _
            (List.mem_map.mpr ⟨_, getD_mod_mem c rest j c, rfl⟩)
        · rw [if_neg hroll]
          exact List.mem_cons_self _ _
  · match poolS with
    | [] => exact absurd rfl hS
    | s :: rest => exact getD_mod_mem s rest k s

/-- Witness for C7 with one-entry pools (and, via the theorem's
conclusion, the empty-pool fallbacks). -/
theorem c7_entity_pool_witness :
    order_pick_customer [⟨"c1", "a@b.c", "Ann", "Lee", "vip"⟩] 0
        ⟨"f1", "f@b.c", "Bo", "Ng", "new"⟩
      ∈ [(⟨"c1", "a@b.c", "Ann", "Lee", "vip"⟩ : PoolCustomer)] ∧
    page_view_customer_id [⟨"c1", "a@b.c", "Ann", "Lee", "vip"⟩] 0 1 ∈
      (none : Option String) ::
        [(⟨"c1", "a@b.c", "Ann", "Lee", "vip"⟩ : PoolCustomer)].map
          (fun c => some c.id) ∧
    cart_pick_session [⟨"s1", some "c1"⟩] 0 "s9"
      ∈ [(⟨"s1", some "c1"⟩ : PoolSession)] ∧
    order_pick_customer [] 0 ⟨"f1", "f@b.c", "Bo", "Ng", "new"⟩
      = ⟨"f1", "f@b.c", "Bo", "Ng", "new"⟩ ∧
    page_view_customer_id [] 0 1 = none ∧
    cart_pick_session [] 0 "s9" = { id := "s9", customer_id := none } :=
  c7_entity_pool [⟨"c1", "a@b.c", "Ann", "Lee", "vip"⟩] [⟨"s1", some "c1"⟩]
    0 0 0 1 ⟨"f1", "f@b.c", "Bo", "Ng", "new"⟩ "s9"
    (by simp) (by simp)

/-! ### StatsAggregator (C2)
The statistics state of `run_load_generator`
(query_generator.py lines 963-978 and 999-1017). -/

/-- One dispatched operation outcome: the tuple
`(success, op_name, duration_ms, result, op_type)` returned by the
`execute_random_*` helpers (result is irrelevant to the statistics). -/
structure OpOutcome where
  success : Bool
  op_name : String
  duration_ms : ℚ
  op_type : String

/-- An entry of `op_stats` (lines 970-975):
`{'count': .., 'success': .., 'errors': .., 'total_ms': ..}`. -/
structure TypeStats where
  count : ℕ
  success : ℕ
  errors : ℕ
  total_ms : ℚ

/-- An entry of `query_stats` (line 1005):
`{'count': 0, 'total_ms': 0, 'errors': 0}`. -/
structure NameStats where
  count : ℕ
  total_ms : ℚ
  errors : ℕ

/-- The statistics state of the loop (lines 963-978).  The Python dicts
are modelled as total functions with the zero entry as default; this
matches the code, which zero-initialises `op_stats` for all four types and
zero-initialises a `query_stats` entry on first contact with a name
(line 1005). -/
structure LoadStats where
  total_ops : ℕ
  successful_ops : ℕ
  failed_ops : ℕ
  total_duration : ℚ
  op_stats : String → TypeStats
  query_stats : String → NameStats

/-- Lines 963-978: all counters start at zero. -/
def initial_stats : LoadStats :=
  { total_ops := 0
    successful_ops := 0
    failed_ops := 0
    total_duration := 0
    op_stats := fun _ => ⟨0, 0, 0, 0⟩
    query_stats := fun _ => ⟨0, 0, 0⟩ }

/-- Lines 999-1017, the per-iteration bookkeeping: `total_ops += 1`;
`total_duration += duration_ms`; `op_stats[op_type].count += 1` and
`.total_ms += duration_ms`; then on success `successful_ops += 1`,
`op_stats[op_type].success += 1`, `query_stats[op_name].count += 1` and
`.total_ms += duration_ms`; on failure `failed_ops += 1`,
`op_stats[op_type].errors += 1`, `query_stats[op_name].errors += 1`.
Note the failure branch does NOT touch `query_stats[op_name].count`. -/
def record_outcome (s : LoadStats) (e : OpOutcome) : LoadStats :=
  let s1 : LoadStats :=
    { s with
      total_ops := s.total_ops + 1
      total_duration := s.total_duration + e.duration_ms
      op_stats := fun t =>
        if t = e.op_type then
          { s.op_stats t with
            count := (s.op_stats t).count + 1
            total_ms := (s.op_stats t).total_ms + e.duration_ms }
        else s.op_stats t }
  if e.success then
    { s1 with
      successful_ops := s1.successful_ops + 1
      op_stats := fun t =>
        if t = e.op_type then
          { s1.op_stats t with success := (s1.op_stats t).success + 1 }
        else s1.op_stats t
      query_stats := fun n =>
        if n = e.op_name then
          { s1.query_stats n with
            count := (s1.query_stats n).count + 1
            total_ms := (s1.query_stats n).total_ms + e.duration_ms }
        else s1.query_stats n }
  else
    { s1 with
      failed_ops := s1.failed_ops + 1
      op_stats := fun t =>
        if t = e.op_type then
          { s1.op_stats t with errors := (s1.op_stats t).errors + 1 }
        else s1.op_stats t
      query_stats := fun n =>
        if n = e.op_name then
          { s1.query_stats n with errors := (s1.query_stats n).errors + 1 }
        else s1.query_stats n }

/-- The statistics state after a sequence of recorded outcomes. -/
def run_stats (es : List OpOutcome) : LoadStats :=
  es.foldl record_outcome initial_stats

/-- How many outcomes of the trace were dispatched under the given name. -/
def dispatched_by_name (n : String) : List OpOutcome → ℕ
  | [] => 0
  | e :: t => (if n = e.op_name then 1 else 0) + dispatched_by_name n t

/-- How many outcomes of the trace succeeded under the given name. -/
def successes_by_name (n : String) : List OpOutcome → ℕ
  | [] => 0
  | e :: t =>
      (if n = e.op_name ∧ e.success = true then 1 else 0) + successes_by_name n t

/-- How many outcomes of the trace failed under the given name. -/
def failures_by_name (n : String) : List OpOutcome → ℕ
  | [] => 0
  | e :: t =>
      (if n = e.op_name ∧ e.success = false then 1 else 0) + failures_by_name n t

/-- How many outcomes of the trace were dispatched under the given type. -/
def dispatched_by_type (ty : String) : List OpOutcome → ℕ
  | [] => 0
  | e :: t => (if ty = e.op_type then 1 else 0) + dispatched_by_type ty t

/-- How many outcomes of the trace succeeded under the given type. -/
def successes_by_type (ty : String) : List OpOutcome → ℕ
  | [] => 0
  | e :: t =>
      (if ty = e.op_type ∧ e.success = true then 1 else 0) + successes_by_type ty t

/-- How many outcomes of the trace failed under the given type. -/
def failures_by_type (ty : String) : List OpOutcome → ℕ
  | [] => 0
  | e :: t =>
      (if ty = e.op_type ∧ e.success = false then 1 else 0) + failures_by_type ty t

theorem record_query_count (s : LoadStats) (e : OpOutcome) (n : String) :
    ((record_outcome s e).query_stats n).count
      = (s.query_stats n).count
        + (if n = e.op_name ∧ e.success = true then 1 else 0) := by
  unfold record_outcome
  by_cases hs : e.success <;> by_cases hn : n = e.op_name <;> simp [hs, hn]

theorem record_query_errors (s : LoadStats) (e : OpOutcome) (n : String) :
    ((record_outcome s e).query_stats n).errors
      = (s.query_stats n).errors
        + (if n = e.op_name ∧ e.success = false then 1 else 0) := by
  unfold record_outcome
  by_cases hs : e.success <;> by_cases hn : n = e.op_name <;> simp [hs, hn]

theorem record_type_count (s : LoadStats) (e : OpOutcome) (ty : String) :
    ((record_outcome s e).op_stats ty).count
      = (s.op_stats ty).count + (if ty = e.op_type then 1 else 0) := by
  unfold record_outcome
  by_cases hs : e.success <;> by_cases ht : ty = e.op_type <;> simp [hs, ht]

theorem record_type_success (s : LoadStats) (e : OpOutcome) (ty : String) :
    ((record_outcome s e).op_stats ty).success
      = (s.op_stats ty).success
        + (if ty = e.op_type ∧ e.success = true then 1 else 0) := by
  unfold record_outcome
  by_cases hs : e.success <;> by_cases ht : ty = e.op_type <;> simp [hs, ht]

theorem record_type_errors (s : LoadStats) (e : OpOutcome) (ty : String) :
    ((record_outcome s e).op_stats ty).errors
      = (s.op_stats ty).errors
        + (if ty = e.op_type ∧ e.success = false then 1 else 0) := by
  unfold record_outcome
  by_cases hs : e.success <;> by_cases ht : ty = e.op_type <;> simp [hs, ht]

theorem record_total_ops (s : LoadStats) (e : OpOutcome) :
    (record_outcome s e).total_ops = s.total_ops + 1 := by
  unfold record_outcome
  by_cases hs : e.success <;> simp [hs]

theorem record_success_fail (s : LoadStats) (e : OpOutcome) :
    (record_outcome s e).successful_ops + (record_outcome s e).failed_ops
      = s.successful_ops + s.failed_ops + 1 := by
  unfold record_outcome
  by_cases hs : e.success <;> simp [hs] <;> omega

theorem foldl_query_count (es : List OpOutcome) :
    ∀ (s : LoadStats) (n : String),
      ((es.foldl record_outcome s).query_stats n).count
        = (s.query_stats n).count + successes_by_name n es := by
  induction es with
  | nil => intro s n; simp [successes_by_name]
  | cons e t ih =>
      intro s n
      rw [List.foldl_cons, ih, record_query_count, successes_by_name]
      omega

theorem foldl_query_errors (es : List OpOutcome) :
    ∀ (s : LoadStats) (n : String),
      ((es.foldl record_outcome s).query_stats n).errors
        = (s.query_stats n).errors + failures_by_name n es := by
  induction es with
  | nil => intro s n; simp [failures_by_name]
  | cons e t ih =>
      intro s n
      rw [List.foldl_cons, ih, record_query_errors, failures_by_name]
      omega

theorem foldl_type_count (es : List OpOutcome) :
    ∀ (s : LoadStats) (ty : String),
      ((es.foldl record_outcome s).op_stats ty).count
        = (s.op_stats ty).count + dispatched_by_type ty es := by
  induction es with
  | nil => intro s ty; simp [dispatched_by_type]
  | cons e t ih =>
      intro s ty
      rw [List.foldl_cons, ih, record_type_count, dispatched_by_type]
      omega

theorem foldl_type_success (es : List OpOutcome) :
    ∀ (s : LoadStats) (ty : String),
      ((es.foldl record_outcome s).op_stats ty).success
        = (s.op_stats ty).success + successes_by_type ty es := by
  induction es with
  | nil => intro s ty; simp [successes_by_type]
  | cons e t ih =>
      intro s ty
      rw [List.foldl_cons, ih, record_type_success, successes_by_type]
      omega

theorem foldl_type_errors (es : List OpOutcome) :
    ∀ (s : LoadStats) (ty : String),
      ((es.foldl record_outcome s).op_stats ty).errors
        = (s.op_stats ty).errors + failures_by_type ty es := by
  induction es with
  | nil => intro s ty; simp [failures_by_type]
  | cons e t ih =>
      intro s ty
      rw [List.foldl_cons, ih, record_type_errors, failures_by_type]
      omega

theorem foldl_total_ops (es : List OpOutcome) :
    ∀ s : LoadStats,
      (es.foldl record_outcome s).total_ops = s.total_ops + es.length := by
  induction es with
  | nil => intro s; simp
  | cons e t ih =>
      intro s
      rw [List.foldl_cons, ih, record_total_ops, List.length_cons]
      omega

theorem foldl_success_fail (es : List OpOutcome) :
    ∀ s : LoadStats,
      (es.foldl record_outcome s).successful_ops
          + (es.foldl record_outcome s).failed_ops
        = s.successful_ops + s.failed_ops + es.length := by
  induction es with
  | nil => intro s; simp
  | cons e t ih =>
      intro s
      rw [List.foldl_cons, ih, record_success_fail, List.length_cons]
      omega

theorem dispatched_split_by_name (n : String) (es : List OpOutcome) :
    dispatched_by_name n es = successes_by_name n es + failures_by_name n es := by
  induction es with
  | nil => simp [dispatched_by_name, successes_by_name, failures_by_name]
  | cons e t ih =>
      rw [dispatched_by_name, successes_by_name, failures_by_name, ih]
      by_cases hn : n = e.op_name <;> cases hs : e.success <;> simp [hn, hs] <;> omega

theorem dispatched_split_by_type (ty : String) (es : List OpOutcome) :
    dispatched_by_type ty es = successes_by_type ty es + failures_by_type ty es := by
  induction es with
  | nil => simp [dispatched_by_type, successes_by_type, failures_by_type]
  | cons e t ih =>
      rw [dispatched_by_type, successes_by_type, failures_by_type, ih]
      by_cases hn : ty = e.op_type <;> cases hs : e.success <;> simp [hn, hs] <;> omega

/-- The one-element trace refuting C2: a single failed operation. -/
def c2_failure_trace : List OpOutcome :=
  [{ success := false
     op_name := "query_orders_by_status"
     duration_ms := 12
     op_type := "SELECT" }]

/-- C2 counterexample: after recording one FAILED operation, the tracked
per-name entry for it has stored `count = 0` and `errors = 1`, while the
dispatched count is 1 and the success count is 0 — so `success + error =
1 ≠ 0 = count`, and the stored per-name count is not the dispatched
count.  (The per-name `count` is only incremented on success, line 1010 of
query_generator.py.) -/
theorem c2_invariant_counterexample :
    ((run_stats c2_failure_trace).query_stats "query_orders_by_status").count = 0 ∧
    ((run_stats c2_failure_trace).query_stats "query_orders_by_status").errors = 1 ∧
    successes_by_name "query_orders_by_status" c2_failure_trace = 0 ∧
    dispatched_by_name "query_orders_by_status" c2_failure_trace = 1 ∧
    successes_by_name "query_orders_by_status" c2_failure_trace
        + ((run_stats c2_failure_trace).query_stats "query_orders_by_status").errors
      ≠ ((run_stats c2_failure_trace).query_stats "query_orders_by_status").count := by
  refine ⟨?_, ?_, ?_, ?_, ?_⟩ <;>
    simp [run_stats, c2_failure_trace, record_outcome, initial_stats,
      successes_by_name, dispatched_by_name]

/-- C2 (amended): after any sequence of recorded outcomes, every tracked
per-operation-KIND entry satisfies `success + errors = count` with `count`
the dispatched count of that kind; every tracked per-operation-NAME entry
stores its SUCCESS count in `count` and its failures in `errors`, so that
`count + errors` (not `count` alone) equals the dispatched count of that
name; and `total_ops` equals the number of recorded outcomes, split
exactly into `successful_ops + failed_ops`. -/
theorem c2_stats_invariant (es : List OpOutcome) (ty n : String) :
    ((run_stats es).op_stats ty).success + ((run_stats es).op_stats ty).errors
      = ((run_stats es).op_stats ty).count ∧
    ((run_stats es).op_stats ty).count = dispatched_by_type ty es ∧
    ((run_stats es).query_stats n).count = successes_by_name n es ∧
    ((run_stats es).query_stats n).errors = failures_by_name n es ∧
    ((run_stats es).query_stats n).count + ((run_stats es).query_stats n).errors
      = dispatched_by_name n es ∧
    (run_stats es).total_ops = es.length ∧
    (run_stats es).successful_ops + (run_stats es).failed_ops
      = (run_stats es).total_ops := by
  unfold run_stats
  rw [foldl_query_count, foldl_query_errors, foldl_type_count, foldl_type_success,
    foldl_type_errors, foldl_total_ops, foldl_success_fail,
    dispatched_split_by_name, dispatched_split_by_type]
  simp [initial_stats]

/-! ### OperationCatalog (C6)
The 20 SELECT templates (query_generator.py lines 80-456), the four
UPDATE templates (lines 747-810) and the four DELETE templates (lines
817-863), together with the dispatch helpers `execute_random_select`
(lines 871-884), `execute_random_update` (lines 910-922) and
`execute_random_delete` (lines 925-937).  Each Python template renders an
f-string; interpolation points become function arguments. -/

def query_orders_by_status (start_d end_d : String) : String :=
  "\n        SELECT\n            order_status,\n            count() as order_count,\n            sum(total_amount) as total_revenue,\n            avg(total_amount) as avg_order_value\n        FROM orders\n        WHERE order_date BETWEEN \x27"
    ++ start_d ++ "\x27 AND \x27" ++ end_d
    ++ "\x27\n        GROUP BY order_status\n        ORDER BY order_count DESC\n    "

def query_top_customers (start_d end_d : String) (limit : ℕ) : String :=
  "\n        SELECT\n            customer_id,\n            customer_email,\n            customer_first_name,\n            customer_last_name,\n            count() as order_count,\n            sum(total_amount) as total_spent,\n            avg(total_amount) as avg_order\n        FROM orders\n        WHERE order_date BETWEEN \x27"
    ++ start_d ++ "\x27 AND \x27" ++ end_d
    ++ "\x27\n        GROUP BY customer_id, customer_email, customer_first_name, customer_last_name\n        ORDER BY total_spent DESC\n        LIMIT "
    ++ (toString limit) ++ "\n    "

def query_hourly_sales (start_d end_d : String) : String :=
  "\n        SELECT\n            toStartOfHour(order_date) as hour,\n            count() as orders,\n            sum(total_amount) as revenue,\n            uniq(customer_id) as unique_customers\n        FROM orders\n        WHERE order_date BETWEEN \x27"
    ++ start_d ++ "\x27 AND \x27" ++ end_d
    ++ "\x27\n        GROUP BY hour\n        ORDER BY hour\n    "

def query_cart_abandonment_rate (start_d end_d : String) : String :=
  "\n        SELECT\n            device_type,\n            count() as total_carts,\n            countIf(cart_status = \x27abandoned\x27) as abandoned,\n            countIf(cart_status = \x27converted\x27) as converted,\n            round(countIf(cart_status = \x27abandoned\x27) / count() * 100, 2) as abandonment_rate\n        FROM shopping_cart\n        WHERE cart_created_at BETWEEN \x27"
    ++ start_d ++ "\x27 AND \x27" ++ end_d
    ++ "\x27\n        GROUP BY device_type\n        ORDER BY total_carts DESC\n    "

def query_page_views_by_type (start_d end_d : String) : String :=
  "\n        SELECT\n            page_type,\n            count() as view_count,\n            avg(time_on_page_seconds) as avg_time_on_page,\n            avg(scroll_depth_percent) as avg_scroll_depth\n        FROM page_views\n        WHERE view_timestamp BETWEEN \x27"
    ++ start_d ++ "\x27 AND \x27" ++ end_d
    ++ "\x27\n        GROUP BY page_type\n        ORDER BY view_count DESC\n    "

def query_revenue_by_channel (start_d end_d : String) : String :=
  "\n        SELECT\n            source_channel,\n            count() as orders,\n            sum(total_amount) as revenue,\n            avg(total_amount) as avg_order_value,\n            sum(discount_amount) as total_discounts\n        FROM orders\n        WHERE order_date BETWEEN \x27"
    ++ start_d ++ "\x27 AND \x27" ++ end_d
    ++ "\x27\n        GROUP BY source_channel\n        ORDER BY revenue DESC\n    "

def query_customer_segments (segment : String) (limit : ℕ) : String :=
  "\n        SELECT\n            customer_id,\n            email,\n            first_name,\n            last_name,\n            total_orders,\n            total_spent,\n            loyalty_tier\n        FROM customers\n        WHERE customer_segment = \x27"
    ++ segment ++ "\x27\n        ORDER BY total_spent DESC\n        LIMIT " ++ (toString limit)
    ++ "\n    "

def query_orders_by_country (start_d end_d : String) : String :=
  "\n        SELECT\n            shipping_address_country,\n            count() as order_count,\n            sum(total_amount) as total_revenue,\n            avg(shipping_cost) as avg_shipping_cost,\n            countIf(order_status = \x27delivered\x27) as delivered_orders\n        FROM orders\n        WHERE order_date BETWEEN \x27"
    ++ start_d ++ "\x27 AND \x27" ++ end_d
    ++ "\x27\n        GROUP BY shipping_address_country\n        ORDER BY total_revenue DESC\n    "

def query_product_category_performance (start_d end_d : String) : String :=
  "\n        SELECT\n            arrayJoin(item_categories) as category,\n            count() as order_count,\n            sum(total_amount) as revenue\n        FROM orders\n        WHERE order_date BETWEEN \x27"
    ++ start_d ++ "\x27 AND \x27" ++ end_d
    ++ "\x27\n        GROUP BY category\n        ORDER BY revenue DESC\n    "

def query_payment_method_analysis (start_d end_d country : String) : String :=
  "\n        SELECT\n            payment_method,\n            payment_status,\n            count() as transaction_count,\n            sum(total_amount) as total_amount,\n            avg(total_amount) as avg_transaction\n        FROM orders\n        WHERE order_date BETWEEN \x27"
    ++ start_d ++ "\x27 AND \x27" ++ end_d
    ++ "\x27\n          AND shipping_address_country = \x27" ++ country
    ++ "\x27\n        GROUP BY payment_method, payment_status\n        ORDER BY transaction_count DESC\n    "

def query_session_analysis (start_d end_d device : String) : String :=
  "\n        SELECT\n            session_id,\n            count() as page_views,\n            min(view_timestamp) as session_start,\n            max(view_timestamp) as session_end,\n            sum(time_on_page_seconds) as total_time,\n            max(add_to_cart_clicked) as added_to_cart\n        FROM page_views\n        WHERE view_timestamp BETWEEN \x27"
    ++ start_d ++ "\x27 AND \x27" ++ end_d ++ "\x27\n          AND device_type = \x27" ++ device
    ++ "\x27\n        GROUP BY session_id\n        ORDER BY page_views DESC\n        LIMIT 100\n    "

def query_browser_performance (start_d end_d : String) : String :=
  "\n        SELECT\n            browser,\n            count() as views,\n            avg(page_load_time_ms) as avg_load_time,\n            quantile(0.95)(page_load_time_ms) as p95_load_time,\n            max(page_load_time_ms) as max_load_time\n        FROM page_views\n        WHERE view_timestamp BETWEEN \x27"
    ++ start_d ++ "\x27 AND \x27" ++ end_d
    ++ "\x27\n        GROUP BY browser\n        ORDER BY views DESC\n    "

def query_abandoned_cart_value (start_d end_d : String) : String :=
  "\n        SELECT\n            source_channel,\n            count() as abandoned_carts,\n            sum(estimated_total) as total_abandoned_value,\n            avg(estimated_total) as avg_cart_value,\n            avg(items_count) as avg_items\n        FROM shopping_cart\n        WHERE cart_status = \x27abandoned\x27\n          AND cart_created_at BETWEEN \x27"
    ++ start_d ++ "\x27 AND \x27" ++ end_d
    ++ "\x27\n        GROUP BY source_channel\n        ORDER BY total_abandoned_value DESC\n    "

def query_customer_loyalty_distribution : String :=
  "\n        SELECT\n            loyalty_tier,\n            count() as customer_count,\n            avg(total_spent) as avg_spent,\n            avg(total_orders) as avg_orders,\n            sum(loyalty_points) as total_points\n        FROM customers\n        GROUP BY loyalty_tier\n        ORDER BY customer_count DESC\n    "

def query_recent_orders (status_v : String) (limit : ℕ) : String :=
  "\n        SELECT\n            order_id,\n            order_number,\n            customer_email,\n            order_status,\n            total_amount,\n            payment_method,\n            order_date\n        FROM orders\n        WHERE order_status = \x27"
    ++ status_v ++ "\x27\n        ORDER BY order_date DESC\n        LIMIT " ++ (toString limit)
    ++ "\n    "

def query_conversion_funnel (start_d end_d : String) : String :=
  "\n        SELECT\n            page_type,\n            count() as views,\n            sum(add_to_cart_clicked) as add_to_cart,\n            sum(buy_now_clicked) as buy_now\n        FROM page_views\n        WHERE view_timestamp BETWEEN \x27"
    ++ start_d ++ "\x27 AND \x27" ++ end_d
    ++ "\x27\n          AND page_type IN (\x27product\x27, \x27cart\x27, \x27checkout\x27)\n        GROUP BY page_type\n        ORDER BY views DESC\n    "

def query_geographic_distribution (start_d end_d : String) : String :=
  "\n        SELECT\n            geo_country,\n            count() as views,\n            uniq(session_id) as unique_sessions,\n            avg(time_on_page_seconds) as avg_time\n        FROM page_views\n        WHERE view_timestamp BETWEEN \x27"
    ++ start_d ++ "\x27 AND \x27" ++ end_d
    ++ "\x27\n        GROUP BY geo_country\n        ORDER BY views DESC\n        LIMIT 20\n    "

def query_search_analysis (start_d end_d : String) : String :=
  "\n        SELECT\n            search_query,\n            count() as search_count,\n            avg(search_results_count) as avg_results,\n            avg(time_on_page_seconds) as avg_time_on_results\n        FROM page_views\n        WHERE page_type = \x27search\x27\n          AND search_query IS NOT NULL\n          AND view_timestamp BETWEEN \x27"
    ++ start_d ++ "\x27 AND \x27" ++ end_d
    ++ "\x27\n        GROUP BY search_query\n        ORDER BY search_count DESC\n        LIMIT 50\n    "

def query_shipping_analysis (start_d end_d : String) : String :=
  "\n        SELECT\n            shipping_method,\n            shipping_carrier,\n            count() as order_count,\n            avg(shipping_cost) as avg_cost,\n            countIf(order_status = \x27delivered\x27) as delivered,\n            countIf(order_status = \x27shipped\x27) as in_transit\n        FROM orders\n        WHERE order_date BETWEEN \x27"
    ++ start_d ++ "\x27 AND \x27" ++ end_d
    ++ "\x27\n        GROUP BY shipping_method, shipping_carrier\n        ORDER BY order_count DESC\n    "

def query_daily_metrics (start_d end_d : String) : String :=
  "\n        SELECT\n            toDate(order_date) as date,\n            count() as orders,\n            uniq(customer_id) as customers,\n            sum(total_amount) as revenue,\n            avg(total_amount) as aov,\n            sum(discount_amount) as discounts\n        FROM orders\n        WHERE order_date BETWEEN \x27"
    ++ start_d ++ "\x27 AND \x27" ++ end_d
    ++ "\x27\n        GROUP BY date\n        ORDER BY date DESC\n    "

def generate_update_customer_status (old_status new_status : String) : String :=
  "\n        ALTER TABLE customers\n        UPDATE account_status = \x27" ++ new_status
    ++ "\x27, updated_at = now()\n        WHERE account_status = \x27" ++ old_status
    ++ "\x27\n        AND rand() % 100 < 5\n    "

def generate_update_customer_loyalty (segment : String) (points_add : ℕ) (new_tier : String) : String :=
  "\n        ALTER TABLE customers\n        UPDATE loyalty_points = loyalty_points + "
    ++ (toString points_add) ++ ",\n               loyalty_tier = \x27" ++ new_tier
    ++ "\x27,\n               updated_at = now()\n        WHERE customer_segment = \x27"
    ++ segment ++ "\x27\n        AND rand() % 100 < 10\n    "

def generate_update_order_status (old_status new_status : String) : String :=
  "\n        ALTER TABLE orders\n        UPDATE order_status = \x27" ++ new_status
    ++ "\x27,\n               updated_at = now()\n        WHERE order_status = \x27"
    ++ old_status ++ "\x27\n        AND rand() % 100 < 15\n    "

def generate_update_cart_status : String :=
  "\n        ALTER TABLE shopping_cart\n        UPDATE cart_status = \x27abandoned\x27,\n               cart_abandoned_at = now(),\n               updated_at = now()\n        WHERE cart_status = \x27active\x27\n        AND cart_updated_at < now() - INTERVAL 2 HOUR\n        AND rand() % 100 < 20\n    "

def generate_delete_old_page_views (hours_ago : ℕ) : String :=
  "\n        ALTER TABLE page_views\n        DELETE WHERE view_timestamp < now() - INTERVAL "
    ++ (toString hours_ago) ++ " HOUR\n        AND rand() % 100 < 5\n    "

def generate_delete_expired_carts : String :=
  "\n        ALTER TABLE shopping_cart\n        DELETE WHERE cart_status = \x27expired\x27\n        AND cart_updated_at < now() - INTERVAL 24 HOUR\n        AND rand() % 100 < 10\n    "

def generate_delete_cancelled_orders (days_ago : ℕ) : String :=
  "\n        ALTER TABLE orders\n        DELETE WHERE order_status = \x27cancelled\x27\n        AND order_date < now() - INTERVAL "
    ++ (toString days_ago) ++ " DAY\n        AND rand() % 100 < 5\n    "

def generate_delete_inactive_customers : String :=
  "\n        ALTER TABLE customers\n        DELETE WHERE account_status = \x27suspended\x27\n        AND last_login_date < now() - INTERVAL 7 DAY\n        AND rand() % 100 < 3\n    "

/-- The value a selected operation hands to the backend client: the code
passes a rendered SQL string to `client.query` / `client.command`; the
`structuredOp` alternative is the `ParameterizedOperation` shape the spec
describes (kind, name, payload), which would be rendered only at the
client boundary. -/
inductive OpValue where
  | rawSql (sql : String)
  | structuredOp (kind opName : String) (payload : List (String × String))

def OpValue.isRaw : OpValue → Bool
  | .rawSql _ => true
  | .structuredOp .. => false

def OpValue.isStructured : OpValue → Bool
  | .rawSql _ => false
  | .structuredOp .. => true

def OpValue.text : OpValue → String
  | .rawSql s => s
  | .structuredOp .. => ""

/-- The randomized parameters a SELECT template draws
(`random_date_range`, `random_limit`, and the status/segment/country/
device pools, lines 58-73). -/
structure SelectArgs where
  start_d : String
  end_d : String
  limit : ℕ
  segment : String
  country : String
  device : String
  status_v : String

/-- `SELECT_QUERY_FUNCTIONS` (query_generator.py lines 435-456). -/
def SELECT_QUERY_FUNCTIONS : List (SelectArgs → String) :=
  [fun a => query_orders_by_status a.start_d a.end_d,
   fun a => query_top_customers a.start_d a.end_d a.limit,
   fun a => query_hourly_sales a.start_d a.end_d,
   fun a => query_cart_abandonment_rate a.start_d a.end_d,
   fun a => query_page_views_by_type a.start_d a.end_d,
   fun a => query_revenue_by_channel a.start_d a.end_d,
   fun a => query_customer_segments a.segment a.limit,
   fun a => query_orders_by_country a.start_d a.end_d,
   fun a => query_product_category_performance a.start_d a.end_d,
   fun a => query_payment_method_analysis a.start_d a.end_d a.country,
   fun a => query_session_analysis a.start_d a.end_d a.device,
   fun a => query_browser_performance a.start_d a.end_d,
   fun a => query_abandoned_cart_value a.start_d a.end_d,
   fun _ => query_customer_loyalty_distribution,
   fun a => query_recent_orders a.status_v a.limit,
   fun a => query_conversion_funnel a.start_d a.end_d,
   fun a => query_geographic_distribution a.start_d a.end_d,
   fun a => query_search_analysis a.start_d a.end_d,
   fun a => query_shipping_analysis a.start_d a.end_d,
   fun a => query_daily_metrics a.start_d a.end_d]

/-- The randomized parameters the mutation templates draw. -/
structure MutationArgs where
  old_status : String
  new_status : String
  segment : String
  points_add : ℕ
  new_tier : String
  hours_ago : ℕ
  days_ago : ℕ

/-- `UPDATE_FUNCTIONS` (query_generator.py lines 805-810). -/
def UPDATE_FUNCTIONS : List (MutationArgs → String) :=
  [fun m => generate_update_customer_status m.old_status m.new_status,
   fun m => generate_update_customer_loyalty m.segment m.points_add m.new_tier,
   fun m => generate_update_order_status m.old_status m.new_status,
   fun _ => generate_update_cart_status]

/-- `DELETE_FUNCTIONS` (query_generator.py lines 858-863). -/
def DELETE_FUNCTIONS : List (MutationArgs → String) :=
  [fun m => generate_delete_old_page_views m.hours_ago,
   fun _ => generate_delete_expired_carts,
   fun m => generate_delete_cancelled_orders m.days_ago,
   fun _ => generate_delete_inactive_customers]

/-- `execute_random_select` (lines 871-884): pick a template (index `i`
models `random.choice`), render it, and pass the rendered value to
`client.query` — the value handed onward is the raw SQL string. -/
def execute_random_select_value (i : ℕ) (a : SelectArgs) : OpValue :=
  OpValue.rawSql ((SELECT_QUERY_FUNCTIONS.getD i (fun _ => "")) a)

/-- `execute_random_update` (lines 910-922): the rendered value handed to
`client.command` is the raw SQL string. -/
def execute_random_update_value (j : ℕ) (m : MutationArgs) : OpValue :=
  OpValue.rawSql ((UPDATE_FUNCTIONS.getD j (fun _ => "")) m)

/-- `execute_random_delete` (lines 925-937): the rendered value handed to
`client.command` is the raw SQL string. -/
def execute_random_delete_value (k : ℕ) (m : MutationArgs) : OpValue :=
  OpValue.rawSql ((DELETE_FUNCTIONS.getD k (fun _ => "")) m)

/-- Drops leading spaces and newlines (the whitespace the templates use). -/
def skipSpaces : List Char → List Char
  | [] => []
  | c :: cs => if (c == ' ') || (c == '\n') then skipSpaces cs else c :: cs

/-- The first whitespace-delimited word of a rendered template: the SQL
verb that identifies the wire format. -/
def firstWord (s : String) : String :=
  String.mk ((skipSpaces s.data).takeWhile (fun c => !((c == ' ') || (c == '\n'))))

theorem select_value_raw (i : ℕ) (hi : i < 20) (a : SelectArgs) :
    (execute_random_select_value i a).isRaw = true ∧
    firstWord (execute_random_select_value i a).text = "SELECT" := by
  interval_cases i <;> exact ⟨rfl, rfl⟩

theorem update_value_raw (j : ℕ) (hj : j < 4) (m : MutationArgs) :
    (execute_random_update_value j m).isRaw = true ∧
    firstWord (execute_random_update_value j m).text = "ALTER" := by
  interval_cases j <;> exact ⟨rfl, rfl⟩

theorem delete_value_raw (k : ℕ) (hk : k < 4) (m : MutationArgs) :
    (execute_random_delete_value k m).isRaw = true ∧
    firstWord (execute_random_delete_value k m).text = "ALTER" := by
  interval_cases k <;> exact ⟨rfl, rfl⟩

/-- Sample parameters for a SELECT template. -/
def sampleSelectArgs : SelectArgs :=
  { start_d := "2025-10-01 00:00:00"
    end_d := "2025-10-05 00:00:00"
    limit := 100
    segment := "vip"
    country := "US"
    device := "mobile"
    status_v := "shipped" }

/-- Sample parameters for the mutation templates. -/
def sampleMutationArgs : MutationArgs :=
  { old_status := "pending"
    new_status := "confirmed"
    segment := "vip"
    points_add := 500
    new_tier := "gold"
    hours_ago := 22
    days_ago := 6 }

/-- C6 counterexample: the value the first SELECT template hands to the
dispatch layer is NOT a structured operation — it is a raw wire-format
string whose first word is the SQL verb `SELECT` — refuting "never a raw
protocol (wire-format) string". -/
theorem c6_structured_counterexample :
    (execute_random_select_value 0 sampleSelectArgs).isStructured = false ∧
    (execute_random_select_value 0 sampleSelectArgs).isRaw = true ∧
    firstWord (execute_random_select_value 0 sampleSelectArgs).text = "SELECT" :=
  ⟨rfl, rfl, rfl⟩

/-- C6 (amended): for every operation selection made by the catalog (each
of the 20 read-query templates and each of the 8 mutation templates, at
any rendered parameters), the value returned to the dispatch layer IS a
raw SQL wire-format string — `SELECT ...` for reads and `ALTER ...` for
mutations — passed verbatim to the backend client; no structured
`ParameterizedOperation` value exists in the code. -/
theorem c6_raw_protocol_strings (i j k : ℕ) (a : SelectArgs) (m : MutationArgs)
    (hi : i < 20) (hj : j < 4) (hk : k < 4) :
    (execute_random_select_value i a).isRaw = true ∧
    firstWord (execute_random_select_value i a).text = "SELECT" ∧
    (execute_random_update_value j m).isRaw = true ∧
    firstWord (execute_random_update_value j m).text = "ALTER" ∧
    (execute_random_delete_value k m).isRaw = true ∧
    firstWord (execute_random_delete_value k m).text = "ALTER" := by
  obtain ⟨h1, h2⟩ := select_value_raw i hi a
  obtain ⟨h3, h4⟩ := update_value_raw j hj m
  obtain ⟨h5, h6⟩ := delete_value_raw k hk m
  exact ⟨h1, h2, h3, h4, h5, h6⟩

/-- Witness for C6 (amended) at template indices 0 and the sample
parameters. -/
theorem c6_raw_protocol_strings_witness :
    (execute_random_select_value 0 sampleSelectArgs).isRaw = true ∧
    firstWord (execute_random_select_value 0 sampleSelectArgs).text = "SELECT" ∧
    (execute_random_update_value 0 sampleMutationArgs).isRaw = true ∧
    firstWord (execute_random_update_value 0 sampleMutationArgs).text = "ALTER" ∧
    (execute_random_delete_value 0 sampleMutationArgs).isRaw = true ∧
    firstWord (execute_random_delete_value 0 sampleMutationArgs).text = "ALTER" :=
  c6_raw_protocol_strings 0 0 0 sampleSelectArgs sampleMutationArgs
    (by norm_num) (by norm_num) (by norm_num)

end QueryDog
